import Mathlib

/-!
Shallow embedding of the database connection-actor layer of `lrust`
(`crates/libs/lib-lualib/src/lua_sqlx.rs` and `lua_tiberius.rs`):
the bind-value model, the bounded request queue with in-flight
accounting, the retry/backoff result-handling policy, the transaction
staging object, and the row-decoding layer.  Host-side primitives that
the spec declares out of scope (the mailbox `moon_send`, the logger
`moon_log`, the tokio sleep) are modelled as events in an explicit
event trace.
-/

namespace LRust

/-- Log level code `LOG_LEVEL_ERROR` (declared in the crate root; only
its distinctness from the info level matters in this layer). -/
def LOG_LEVEL_ERROR : Nat := 1

/-- Log level code `LOG_LEVEL_INFO` (declared in the crate root). -/
def LOG_LEVEL_INFO : Nat := 2

/-- Model of `serde_json::Value`.  Numbers are kept as their source
text: no arithmetic is ever performed on them in this layer, they are
only constructed by the parser and handed to the driver. -/
inductive Json where
  | null : Json
  | bool (b : Bool) : Json
  | num (s : String) : Json
  | str (s : String) : Json
  | arr (elems : List Json) : Json
  | obj (fields : List (String × Json)) : Json

/-- JSON insignificant whitespace, as accepted by `serde_json`. -/
def isJsonWs (c : Char) : Bool :=
  c = ' ' || c = '\t' || c = '\n' || c = '\r'

/-- Drop leading JSON whitespace. -/
def skipWs : List Char → List Char
  | [] => []
  | c :: rest => if isJsonWs c then skipWs rest else c :: rest

/-- Hexadecimal digit value, for `\uXXXX` escapes. -/
def hexVal (c : Char) : Option Nat :=
  if '0' ≤ c ∧ c ≤ '9' then some (c.toNat - '0'.toNat)
  else if 'a' ≤ c ∧ c ≤ 'f' then some (c.toNat - 'a'.toNat + 10)
  else if 'A' ≤ c ∧ c ≤ 'F' then some (c.toNat - 'A'.toNat + 10)
  else none

/-- Parse the body of a JSON string literal (after the opening quote),
handling the escape sequences `serde_json` accepts and rejecting raw
control characters. -/
def parseStringBody : Nat → List Char → List Char → Option (String × List Char)
  | 0, _, _ => none
  | _ + 1, acc, '"' :: rest => some (String.mk acc.reverse, rest)
  | fuel + 1, acc, '\\' :: e :: rest =>
    match e with
    | '"' => parseStringBody fuel ('"' :: acc) rest
    | '\\' => parseStringBody fuel ('\\' :: acc) rest
    | '/' => parseStringBody fuel ('/' :: acc) rest
    | 'b' => parseStringBody fuel ('\x08' :: acc) rest
    | 'f' => parseStringBody fuel ('\x0c' :: acc) rest
    | 'n' => parseStringBody fuel ('\n' :: acc) rest
    | 'r' => parseStringBody fuel ('\r' :: acc) rest
    | 't' => parseStringBody fuel ('\t' :: acc) rest
    | 'u' =>
      match rest with
      | h1 :: h2 :: h3 :: h4 :: rest2 =>
        match hexVal h1, hexVal h2, hexVal h3, hexVal h4 with
        | some a, some b, some c, some d =>
          let n := ((a * 16 + b) * 16 + c) * 16 + d
          if h : n.isValidChar then
            parseStringBody fuel (Char.ofNatAux n h :: acc) rest2
          else none
        | _, _, _, _ => none
      | _ => none
    | _ => none
  | fuel + 1, acc, c :: rest =>
    if c.toNat < 0x20 then none else parseStringBody fuel (c :: acc) rest
  | _ + 1, _, [] => none

/-- Parse a JSON number (sign, integer part, optional fraction and
exponent), returning its source text. -/
def parseNumber (cs : List Char) : Option (String × List Char) :=
  let (sign, cs1) :=
    match cs with
    | '-' :: rest => (['-'], rest)
    | _ => (([] : List Char), cs)
  let (intPart, cs2) := cs1.span Char.isDigit
  let intOk :=
    match intPart with
    | [] => false
    | ['0'] => true
    | '0' :: _ => false
    | _ => true
  if intOk then
    let (fracPart, cs3) :=
      match cs2 with
      | '.' :: rest =>
        let (ds, r) := rest.span Char.isDigit
        if ds.isEmpty then ([], cs2) else ('.' :: ds, r)
      | _ => (([] : List Char), cs2)
    let fracBad :=
      match cs2 with
      | '.' :: rest => ((rest.span Char.isDigit).1).isEmpty
      | _ => false
    let (expPart, cs4) :=
      match cs3 with
      | e :: rest =>
        if e = 'e' ∨ e = 'E' then
          let (sgn, rest2) :=
            match rest with
            | '+' :: r => (['+'], r)
            | '-' :: r => (['-'], r)
            | _ => (([] : List Char), rest)
          let (ds, r) := rest2.span Char.isDigit
          if ds.isEmpty then ([], cs3) else (e :: (sgn ++ ds), r)
        else ([], cs3)
      | [] => (([] : List Char), cs3)
    let expBad :=
      match cs3 with
      | e :: rest =>
        if e = 'e' ∨ e = 'E' then
          let rest2 :=
            match rest with
            | '+' :: r => r
            | '-' :: r => r
            | _ => rest
          ((rest2.span Char.isDigit).1).isEmpty
        else false
      | [] => false
    if fracBad ∨ expBad then none
    else some (String.mk (sign ++ intPart ++ fracPart ++ expPart), cs4)
  else none

mutual

/-- Recursive-descent JSON value parser, modelling
`serde_json::from_slice` (fuel-based; the fuel is always at least the
input length plus one, so it never runs out on real input). -/
def parseValue : Nat → List Char → Option (Json × List Char)
  | 0, _ => none
  | fuel + 1, cs =>
    match skipWs cs with
    | [] => none
    | 'n' :: rest =>
      match rest with
      | 'u' :: 'l' :: 'l' :: r => some (.null, r)
      | _ => none
    | 't' :: rest =>
      match rest with
      | 'r' :: 'u' :: 'e' :: r => some (.bool true, r)
      | _ => none
    | 'f' :: rest =>
      match rest with
      | 'a' :: 'l' :: 's' :: 'e' :: r => some (.bool false, r)
      | _ => none
    | '"' :: rest =>
      match parseStringBody (rest.length + 1) [] rest with
      | some (s, r) => some (.str s, r)
      | none => none
    | '[' :: rest =>
      match skipWs rest with
      | ']' :: r => some (.arr [], r)
      | other => (parseElems fuel other).map (fun (xs, r) => (.arr xs, r))
    | '\x7b' :: rest =>
      match skipWs rest with
      | '\x7d' :: r => some (.obj [], r)
      | other => (parseMembers fuel other).map (fun (fs, r) => (.obj fs, r))
    | c :: rest =>
      if c = '-' ∨ c.isDigit then
        (parseNumber (c :: rest)).map (fun (s, r) => (.num s, r))
      else none

/-- Parse one or more comma-separated array elements, up to the closing
bracket. -/
def parseElems : Nat → List Char → Option (List Json × List Char)
  | 0, _ => none
  | fuel + 1, cs =>
    match parseValue fuel cs with
    | none => none
    | some (v, rest) =>
      match skipWs rest with
      | ',' :: rest2 => (parseElems fuel rest2).map (fun (xs, r) => (v :: xs, r))
      | ']' :: rest2 => some ([v], rest2)
      | _ => none

/-- Parse one or more comma-separated object members, up to the closing
brace. -/
def parseMembers : Nat → List Char → Option (List (String × Json) × List Char)
  | 0, _ => none
  | fuel + 1, cs =>
    match skipWs cs with
    | '"' :: rest =>
      match parseStringBody (rest.length + 1) [] rest with
      | none => none
      | some (key, rest2) =>
        match skipWs rest2 with
        | ':' :: rest3 =>
          match parseValue fuel rest3 with
          | none => none
          | some (v, rest4) =>
            match skipWs rest4 with
            | ',' :: rest5 =>
              (parseMembers fuel rest5).map (fun (fs, r) => ((key, v) :: fs, r))
            | '\x7d' :: rest5 => some ([(key, v)], rest5)
            | _ => none
        | _ => none
    | _ => none

end

/-- Model of `serde_json::from_slice::<serde_json::Value>`: the whole
input (up to trailing whitespace) must be a single valid JSON value. -/
def jsonFromSlice (s : String) : Option Json :=
  match parseValue (s.length + 1) s.toList with
  | some (v, rest) => if (skipWs rest).isEmpty then some v else none
  | none => none

/-- Model of the `QueryParams` bind-value union of both backends. Byte
buffers (`Vec<u8>`) are carried as strings of their bytes; float
payloads are opaque bit patterns (no arithmetic touches them). -/
inductive QueryParams where
  | Bool (b : Bool)
  | Int (i : Int)
  | Float (bits : Int)
  | Text (s : String)
  | Json (v : Json)
  | Bytes (buf : String)

/-- Model of the host values that can appear as bind arguments
(`LuaValue::from_stack`).  A `table` is represented by the buffer
`encode_table` serializes it to; `encode_table` lives in `lua_json.rs`
which is not among the sources here, and it always emits at least one
byte for a table, so the buffer is carried with its first byte
explicit.  `other` stands for a Lua value of any other type (nil,
function, userdata, ...), carrying its type name. -/
inductive LuaBindValue where
  | boolean (b : Bool)
  | number (bits : Int)
  | integer (i : Int)
  | string (s : String)
  | table (b0 : Char) (rest : List Char)
  | other (typeName : String)

/-- First-byte test: `val.starts_with(b"\x7b")` on a byte slice holds
exactly when the first byte is the given (ASCII) character. -/
def firstByteIs (s : String) (c : Char) : Bool :=
  match s.data with
  | [] => false
  | c0 :: _ => c0 = c

/-- Embedding of `get_query_param` (identical in `lua_sqlx.rs` and
`lua_tiberius.rs`): classify one caller-supplied bind argument. -/
def get_query_param (v : LuaBindValue) : Except String QueryParams :=
  match v with
  | .boolean b => .ok (.Bool b)
  | .number bits => .ok (.Float bits)
  | .integer i => .ok (.Int i)
  | .string s =>
    if firstByteIs s '\x7b' || firstByteIs s '[' then
      match jsonFromSlice s with
      | some value => .ok (.Json value)
      | none => .ok (.Text s)
    else .ok (.Text s)
  | .table b0 rest =>
    let buffer := String.mk (b0 :: rest)
    if b0 = '\x7b' || b0 = '[' then
      match jsonFromSlice buffer with
      | some value => .ok (.Json value)
      | none => .ok (.Bytes buffer)
    else .ok (.Bytes buffer)
  | .other typeName =>
    .error ("get_query_param: unsupport value type :" ++ typeName)

/-- The bind-collection loop shared by `query`, `execute` and
`push_transaction_query`: classify each trailing stack argument in
order, stopping at the first construction error. -/
def collectParams : List LuaBindValue → Except String (List QueryParams)
  | [] => .ok []
  | v :: rest =>
    match get_query_param v with
    | .ok p => (collectParams rest).map (fun ps => p :: ps)
    | .error e => .error e

/-- Embedding of the `DbType` semantic-type enum of `lua_sqlx.rs`. -/
inductive DbType where
  | Int8
  | UInt8
  | Int16
  | UInt16
  | Int32
  | UInt32
  | Int64
  | UInt64
  | Float32
  | Float64
  | Text
  | Bool
  | Timestamp
  | Date
  | Time
  | Uuid
  | Bytes
  | Json
  | Null
  | UnsupportedDecimal
  | UnsupportedTimeWithTz
  | Unknown
deriving DecidableEq

/-- Embedding of the static `DB_TYPE_MAP` (a `phf` map: exact,
case-sensitive key lookup), entry for entry. -/
def DB_TYPE_MAP : List (String × DbType) := [
  ("INT4", .Int32),
  ("INT", .Int32),
  ("INTEGER", .Int32),
  ("MEDIUMINT", .Int32),
  ("INT8", .Int64),
  ("BIGINT", .Int64),
  ("INT2", .Int16),
  ("SMALLINT", .Int16),
  ("TINYINT", .Int8),
  ("FLOAT8", .Float64),
  ("DOUBLE", .Float64),
  ("FLOAT4", .Float32),
  ("FLOAT", .Float32),
  ("REAL", .Float32),
  ("TEXT", .Text),
  ("VARCHAR", .Text),
  ("CHAR", .Text),
  ("BPCHAR", .Text),
  ("NAME", .Text),
  ("TINYTEXT", .Text),
  ("MEDIUMTEXT", .Text),
  ("LONGTEXT", .Text),
  ("NVARCHAR", .Text),
  ("NCHAR", .Text),
  ("BOOL", .Bool),
  ("BOOLEAN", .Bool),
  ("TIMESTAMP", .Timestamp),
  ("TIMESTAMPTZ", .Timestamp),
  ("DATETIME", .Timestamp),
  ("DATE", .Date),
  ("TIME", .Time),
  ("UUID", .Uuid),
  ("BYTEA", .Bytes),
  ("BLOB", .Bytes),
  ("VARBINARY", .Bytes),
  ("BINARY", .Bytes),
  ("TINYBLOB", .Bytes),
  ("MEDIUMBLOB", .Bytes),
  ("LONGBLOB", .Bytes),
  ("JSON", .Json),
  ("JSONB", .Json),
  ("NULL", .Null),
  ("DECIMAL", .UnsupportedDecimal),
  ("NUMERIC", .UnsupportedDecimal),
  ("MONEY", .UnsupportedDecimal),
  ("TIMETZ", .UnsupportedTimeWithTz),
  ("TINYINT UNSIGNED", .UInt8),
  ("SMALLINT UNSIGNED", .UInt16),
  ("INT UNSIGNED", .UInt32),
  ("MEDIUMINT UNSIGNED", .UInt32),
  ("BIGINT UNSIGNED", .UInt64)]

/-- Embedding of `DbType::from_name`: exact lookup, unmapped names fall
to the `Unknown` category. -/
def DbType.from_name (name : String) : DbType :=
  ((DB_TYPE_MAP.lookup name).getD .Unknown)

/-- Model of `chrono::NaiveDateTime` (wall-clock fields only; this
layer only formats them). -/
structure DateTimeVal where
  year : Nat
  month : Nat
  day : Nat
  hour : Nat
  minute : Nat
  second : Nat
deriving DecidableEq

/-- Model of `chrono::NaiveDate`. -/
structure DateVal where
  year : Nat
  month : Nat
  day : Nat
deriving DecidableEq

/-- Model of `chrono::NaiveTime`. -/
structure TimeVal where
  hour : Nat
  minute : Nat
  second : Nat
deriving DecidableEq

/-- Zero-pad a number to two digits, as chrono `%m`, `%d`, `%H`, `%M`,
`%S` do. -/
def pad2 (n : Nat) : String :=
  if n < 10 then "0" ++ toString n else toString n

/-- Zero-pad a number to four digits, as chrono `%Y` does for the years
this layer handles. -/
def pad4 (n : Nat) : String :=
  if n < 10 then "000" ++ toString n
  else if n < 100 then "00" ++ toString n
  else if n < 1000 then "0" ++ toString n
  else toString n

/-- Model of `dt.format("%Y-%m-%d %H:%M:%S").to_string()`. -/
def formatTimestamp (dt : DateTimeVal) : String :=
  pad4 dt.year ++ "-" ++ pad2 dt.month ++ "-" ++ pad2 dt.day ++ " " ++
    pad2 dt.hour ++ ":" ++ pad2 dt.minute ++ ":" ++ pad2 dt.second

/-- Model of `date.format("%Y-%m-%d").to_string()`. -/
def formatDate (d : DateVal) : String :=
  pad4 d.year ++ "-" ++ pad2 d.month ++ "-" ++ pad2 d.day

/-- Model of `time.format("%H:%M:%S").to_string()`. -/
def formatTime (t : TimeVal) : String :=
  pad2 t.hour ++ ":" ++ pad2 t.minute ++ ":" ++ pad2 t.second

/-- Model of one raw column value (`ValueRef`) together with the
outcomes of the `sqlx::Decode` instances this layer invokes on it: each
field is the result of decoding the raw bytes at the corresponding Rust
type (`none` standing for a decode error).  Byte payloads are carried
as strings of their bytes, float payloads as opaque bit patterns; a
UUID is carried as its canonical string form (`uuid.to_string()`). -/
structure RawValue where
  isNull : Bool
  asI8 : Option Int
  asI16 : Option Int
  asI32 : Option Int
  asI64 : Option Int
  asF32 : Option Int
  asF64 : Option Int
  asBool : Option Bool
  asStr : Option String
  asBytes : Option String
  asDateTime : Option DateTimeVal
  asDate : Option DateVal
  asTime : Option TimeVal
  asUuid : Option String
deriving DecidableEq

/-- Dynamic value of one decoded Lua cell.  Lua has no distinct byte
type: byte slices are pushed as strings, so they also appear as `str`;
float payloads stay opaque bit patterns. -/
inductive LuaCell where
  | nil
  | int (i : Int)
  | num (bits : Int)
  | bool (b : Bool)
  | str (s : String)
deriving DecidableEq

/-- Embedding of the per-cell body of `process_rows` in `lua_sqlx.rs`:
the storage-level-null check runs before the category dispatch, numeric
and boolean and text decode errors substitute a zero/false/empty
default (`unwrap_or`), temporal and UUID decode errors substitute Lua
nil, unsupported categories abort with an error naming the column.
Unsigned casts (`as u8` and so on) reinterpret the decoded signed value
modulo two to the width. -/
def processCell (columnName : String) (ty : DbType) (v : RawValue) :
    Except String LuaCell :=
  if v.isNull then .ok .nil
  else
    match ty with
    | .Int8 => .ok (.int (v.asI8.getD 0))
    | .UInt8 => .ok (.int ((v.asI8.getD 0).emod (2 ^ 8)))
    | .Int16 => .ok (.int (v.asI16.getD 0))
    | .UInt16 => .ok (.int ((v.asI16.getD 0).emod (2 ^ 16)))
    | .Int32 => .ok (.int (v.asI32.getD 0))
    | .UInt32 => .ok (.int ((v.asI32.getD 0).emod (2 ^ 32)))
    | .Int64 => .ok (.int (v.asI64.getD 0))
    | .UInt64 => .ok (.int ((v.asI64.getD 0).emod (2 ^ 64)))
    | .Float32 => .ok (.num (v.asF32.getD 0))
    | .Float64 => .ok (.num (v.asF64.getD 0))
    | .Text => .ok (.str (v.asStr.getD ""))
    | .Bool => .ok (.bool (v.asBool.getD false))
    | .Timestamp =>
      match v.asDateTime with
      | some dt => .ok (.str (formatTimestamp dt))
      | none => .ok .nil
    | .Date =>
      match v.asDate with
      | some d => .ok (.str (formatDate d))
      | none => .ok .nil
    | .Time =>
      match v.asTime with
      | some t => .ok (.str (formatTime t))
      | none => .ok .nil
    | .Uuid =>
      match v.asUuid with
      | some u => .ok (.str u)
      | none => .ok .nil
    | .Bytes => .ok (.str (v.asBytes.getD ""))
    | .Json => .ok (.str (v.asStr.getD "\x7b\x7d"))
    | .Null => .ok .nil
    | .UnsupportedDecimal =>
      .error ("Unsupported decimal type for column \x27" ++ columnName ++ "\x27")
    | .UnsupportedTimeWithTz =>
      .error ("Unsupported time with time zone type for column \x27" ++
        columnName ++ "\x27")
    | .Unknown =>
      match v.asBytes with
      | some bs => .ok (.str bs)
      | none => .ok .nil

/-- Column metadata as reported by the driver: name and declared type
name. -/
structure DbColumn where
  name : String
  typeName : String
deriving DecidableEq

deriving instance DecidableEq for Except

/-- Model of one backend-native row: the shared column schema and, per
column index, the outcome of `row.try_get_raw(index)` (`Except.error`
standing for a column-level access error). -/
structure DbRow where
  columns : List DbColumn
  cells : List (Except String RawValue)
deriving DecidableEq

/-- The two failure modes of the row loop: an unsupported-type error
(returned as `Err(String)` from `process_rows`) and a column access
error (reported as a `false, message` pair of return values). -/
inductive RowErr where
  | unsupported (msg : String)
  | access (msg : String)
deriving DecidableEq

/-- Column info extracted once per result set from the first row:
index, name, resolved semantic type. -/
def columnInfo (r : DbRow) : List (Nat × String × DbType) :=
  r.columns.enum.map (fun p => (p.1, p.2.name, DbType.from_name p.2.typeName))

/-- Decode one row against the (first-row) column info, stopping at the
first unsupported-type or access error, as the Rust loop does. -/
def processRow (info : List (Nat × String × DbType)) (row : DbRow) :
    Except RowErr (List (String × LuaCell))  :=
  match info with
  | [] => .ok []
  | (idx, colName, ty) :: rest =>
    match row.cells.get? idx with
    | some (.ok value) =>
      match processCell colName ty value with
      | .ok cell => (processRow rest row).map (fun tail => (colName, cell) :: tail)
      | .error m => .error (.unsupported m)
    | some (.error e) => .error (.access (colName ++ " decode error: " ++ e))
    | none => .error (.access (colName ++ " decode error: ColumnIndexOutOfBounds"))

/-- Decode a list of rows against the first row's column info. -/
def processRowsGo (info : List (Nat × String × DbType)) :
    List DbRow → Except RowErr (List (List (String × LuaCell)))
  | [] => .ok []
  | r :: rs =>
    match processRow info r with
    | .ok cells => (processRowsGo info rs).map (fun tail => cells :: tail)
    | .error e => .error e

/-- The three observable outcomes of `process_rows`: a decoded row
table, an `Err(String)` (unsupported type), or the `lua_push(false);
lua_push(message); Ok(2)` pair pushed on a column access error. -/
inductive RowsOut where
  | ok (rows : List (List (String × LuaCell)))
  | err (msg : String)
  | accessPair (b : Bool) (msg : String)
deriving DecidableEq

/-- Embedding of `process_rows` in `lua_sqlx.rs` (generic over the
three sqlx backends): empty input yields an empty table; otherwise the
column schema is taken from the first row and every row is decoded
against it. -/
def processRows (rows : List DbRow) : RowsOut :=
  match rows with
  | [] => .ok []
  | first :: _ =>
    match processRowsGo (columnInfo first) rows with
    | .ok out => .ok out
    | .error (.unsupported m) => .err m
    | .error (.access m) => .accessPair false m

/-- Model of `sqlx::Error` as far as `decode` inspects it:
`as_database_error()` is `some` (with the server message) for
database-originated errors and `none` otherwise; `text` is
`to_string()`. -/
structure DbError where
  dbMessage : Option String
  text : String
deriving DecidableEq

/-- Embedding of the `DatabaseResponse` union of `lua_sqlx.rs`.  The
three per-backend row variants (`PgRows`, `MysqlRows`, `SqliteRows`)
are collapsed into one `Rows` constructor since `process_rows` is
generic over the backend. -/
inductive DatabaseResponse where
  | Connect
  | Rows (rows : List DbRow)
  | Error (e : DbError)
  | Timeout (msg : String)
  | Transaction
deriving DecidableEq

/-- The value shapes `decode` leaves on the Lua stack: a decoded row
table, a plain table of named fields, or a two-value `false, message`
pair. -/
inductive DecodeOut where
  | rows (rs : List (List (String × LuaCell)))
  | table (fields : List (String × LuaCell))
  | pair (b : Bool) (msg : String)
deriving DecidableEq

/-- Embedding of `decode` in `lua_sqlx.rs`: convert a delivered result
into the caller-visible value shape. -/
def decode (result : DatabaseResponse) : DecodeOut :=
  match result with
  | .Rows rows =>
    match processRows rows with
    | .ok rs => .rows rs
    | .err m => .table [("kind", .str "ERROR"), ("message", .str m)]
    | .accessPair b m => .pair b m
  | .Transaction => .table [("message", .str "ok")]
  | .Connect => .table [("message", .str "success")]
  | .Error e =>
    match e.dbMessage with
    | some m => .table [("kind", .str "DB"), ("message", .str m)]
    | none => .table [("kind", .str "ERROR"), ("message", .str e.text)]
  | .Timeout m => .table [("kind", .str "TIMEOUT"), ("message", .str m)]

/-- The decision used by claim C8: is this output a `kind`/`message`
error table with one of the three documented kinds? -/
def isKindMessageTable : DecodeOut → Bool
  | .table (("kind", .str k) :: ("message", _) :: []) =>
    k = "ERROR" || k = "DB" || k = "TIMEOUT"
  | _ => false

/-- Embedding of `DatabaseQuery`: sql text plus ordered binds. -/
structure DatabaseQuery where
  sql : String
  binds : List QueryParams

/-- Embedding of the `DatabaseRequest` operation union.  `Execute`
exists only in the tiberius backend. -/
inductive DatabaseRequest where
  | Query (owner : Nat) (session : Int) (q : DatabaseQuery)
  | Execute (owner : Nat) (session : Int) (q : DatabaseQuery)
  | Transaction (owner : Nat) (session : Int) (qs : List DatabaseQuery)
  | Close

/-- Observable side effects of the actor: an execution attempt against
the physical connection, a mailbox delivery (`moon_send`), a log line
(`moon_log`), and a backoff sleep (in seconds). -/
inductive Event where
  | exec (q : DatabaseQuery)
  | send (protocolType : Nat) (owner : Nat) (session : Int) (resp : DatabaseResponse)
  | log (owner : Nat) (level : Nat) (msg : String)
  | sleep (seconds : Nat)

/-- The state threaded through `handle_result`: the per-operation
`failed_times` counter and the shared in-flight counter. -/
structure HandleState where
  failedTimes : Int
  counter : Int
deriving DecidableEq

/-- Result of one `handle_result` call: updated state, emitted events
in order, and the returned retry flag. -/
structure HandleOut where
  state : HandleState
  events : List Event
  retry : Bool

/-- Embedding of `handle_result` (identical policy in `lua_sqlx.rs` and
`lua_tiberius.rs`): success delivers the result, logs a recovery notice
when there were prior failures, and decrements the counter; an attended
failure (`session != 0`) delivers an `Error` response once and
decrements; an unattended failure (`session == 0`) delivers nothing,
logs only once `failed_times > 0`, bumps `failed_times`, sleeps one
second and asks for a retry. -/
def handle_result (databaseUrl : String) (st : HandleState)
    (protocolType owner : Nat) (session : Int)
    (res : Except DbError DatabaseResponse) : HandleOut :=
  match res with
  | .ok resp =>
    { state := { failedTimes := st.failedTimes, counter := st.counter - 1 }
      events :=
        Event.send protocolType owner session resp ::
          (if st.failedTimes > 0 then
            [Event.log owner LOG_LEVEL_INFO
              ("Database \x27" ++ databaseUrl ++
                "\x27 recover from error. Retry success.")]
          else [])
      retry := false }
  | .error err =>
    if session ≠ 0 then
      { state := { failedTimes := st.failedTimes, counter := st.counter - 1 }
        events := [Event.send protocolType owner session (.Error err)]
        retry := false }
    else
      { state := { failedTimes := st.failedTimes + 1, counter := st.counter }
        events :=
          (if st.failedTimes > 0 then
            [Event.log owner LOG_LEVEL_ERROR
              ("Database \x27" ++ databaseUrl ++ "\x27 error: \x27" ++
                err.text ++ "\x27. Will retry.")]
          else []) ++ [Event.sleep 1]
        retry := true }

/-- Embedding of the actor's per-operation loop
(`while handle_result(..., pool.query(query_op).await).await {}`): the
same fixed operation payload `q` is executed repeatedly; the list holds
the outcomes of the successive execution attempts.  Returns the final
state, the ordered event trace (each attempt preceded by an `exec q`
event), and whether the loop was still asking for a retry when the
supplied outcomes ran out. -/
def runOp (databaseUrl : String) (protocolType owner : Nat) (session : Int)
    (q : DatabaseQuery) :
    HandleState → List (Except DbError DatabaseResponse) →
      HandleState × List Event × Bool
  | st, [] => (st, [], true)
  | st, r :: rest =>
    let out := handle_result databaseUrl st protocolType owner session r
    if out.retry then
      let next := runOp databaseUrl protocolType owner session q out.state rest
      (next.1, (Event.exec q :: out.events) ++ next.2.1, next.2.2)
    else (out.state, Event.exec q :: out.events, false)

/-- The payload of an `exec` event, if any. -/
def execPayload : Event → Option DatabaseQuery
  | .exec q => some q
  | _ => none

/-- Whether an event is a mailbox delivery. -/
def isSendEvent : Event → Bool
  | .send _ _ _ _ => true
  | _ => false

/-- Whether an event is a log line. -/
def isLogEvent : Event → Bool
  | .log _ _ _ => true
  | _ => false

/-- Capacity of the per-connection submission queue:
`mpsc::channel(100)` in `connect`. -/
def CHANNEL_CAPACITY : Nat := 100

/-- Model of `tokio::sync::mpsc::Sender::try_send` on the bounded
queue: enqueue if fewer than `CHANNEL_CAPACITY` messages are pending,
fail immediately otherwise (the `TrySendError::Full` display text is
"no available capacity"). -/
def trySend (queue : List DatabaseRequest) (msg : DatabaseRequest) :
    Option (List DatabaseRequest) :=
  if queue.length < CHANNEL_CAPACITY then some (queue ++ [msg]) else none

/-- State of one `DatabaseConnection` handle visible to submitters: the
pending queue contents and the in-flight counter. -/
structure ConnState where
  queue : List DatabaseRequest
  counter : Int

/-- What a submission entry point returns to the caller: the session id
on successful enqueue, or a synchronous `kind`/`message` error table. -/
inductive SubmitOut where
  | session (s : Int)
  | errTable (kind : String) (message : String)

/-- Embedding of the `query` entry point of `lua_sqlx.rs`: classify the
trailing bind arguments (any construction error is returned
synchronously and nothing is enqueued), then `try_send`; on successful
enqueue the counter is incremented, on a full queue an error table is
returned and the state is untouched. -/
def querySubmit (conn : ConnState) (owner : Nat) (session : Int)
    (sql : String) (bindArgs : List LuaBindValue) : ConnState × SubmitOut :=
  match collectParams bindArgs with
  | .error e => (conn, .errTable "ERROR" e)
  | .ok params =>
    match trySend conn.queue (.Query owner session ⟨sql, params⟩) with
    | some q => ({ queue := q, counter := conn.counter + 1 }, .session session)
    | none => (conn, .errTable "ERROR" "no available capacity")

/-- Embedding of the caller-owned `TransactionQuerys` staging object. -/
structure TransactionQuerys where
  querys : List DatabaseQuery

/-- Embedding of the `transaction` entry point (same in both backends):
`std::mem::take(&mut querys.querys)` runs while the request message is
built, before `try_send` is called, so the staging object is left empty
on every path; on a full queue the taken queries are dropped with the
failed message and the connection state is untouched. -/
def transactionSubmit (conn : ConnState) (owner : Nat) (session : Int)
    (staging : TransactionQuerys) :
    ConnState × TransactionQuerys × SubmitOut :=
  let taken := staging.querys
  let emptied : TransactionQuerys := ⟨[]⟩
  match trySend conn.queue (.Transaction owner session taken) with
  | some q => ({ queue := q, counter := conn.counter + 1 }, emptied, .session session)
  | none => (conn, emptied, .errTable "ERROR" "no available capacity")

/-- Run a list of queries in order against a database state, stopping
at the first failure (the body of both transaction loops). -/
def runQueries {σ : Type} (exec : DatabaseQuery → σ → Except DbError σ) :
    List DatabaseQuery → σ → Except DbError σ
  | [], db => .ok db
  | q :: rest, db =>
    match exec q db with
    | .ok db2 => runQueries exec rest db2
    | .error e => .error e

/-- Embedding of `DatabasePool::transaction` in `lua_sqlx.rs`:
`pool.begin()`, execute every staged query, `commit()`.  The sqlx
transaction guard rolls the transaction back when dropped without a
commit (sqlx's documented contract), so the executions run against a
shadow state and only a full success publishes it. -/
def sqlxTransaction {σ : Type} (exec : DatabaseQuery → σ → Except DbError σ)
    (requests : List DatabaseQuery) (db : σ) :
    σ × Except DbError DatabaseResponse :=
  match runQueries exec requests db with
  | .ok db2 => (db2, .ok .Transaction)
  | .error e => (db, .error e)

/-- Embedding of `DatabasePool::batch_execute` in `lua_tiberius.rs`,
which carries the source comment "Execute queries in batch without
transaction": each query executes directly against the connection and
the loop stops at the first error, leaving the effects of the earlier
queries in place. -/
def tiberiusBatchExecute {σ : Type} (exec : DatabaseQuery → σ → Except DbError σ) :
    List DatabaseQuery → σ → σ × Except DbError DatabaseResponse
  | [], db => (db, .ok .Transaction)
  | q :: rest, db =>
    match exec q db with
    | .ok db2 => tiberiusBatchExecute exec rest db2
    | .error e => (db, .error e)

/-- Whether a request participates in in-flight accounting: `close()`
enqueues its `Close` message without touching the counter, every other
entry point increments on successful enqueue. -/
def countedReq : DatabaseRequest → Bool
  | .Close => false
  | _ => true

/-- The session id a queued operation carries (`Close` has none). -/
def reqSession : DatabaseRequest → Option Int
  | .Query _ session _ => some session
  | .Execute _ session _ => some session
  | .Transaction _ session _ => some session
  | .Close => none

/-- Combined state of one connection handle and its actor, with ghost
counts of successfully enqueued counted operations and of terminal
outcomes. -/
structure ActorSys where
  queue : List DatabaseRequest
  current : Option DatabaseRequest
  counter : Int
  submitted : Nat
  completed : Nat

/-- State of a freshly connected handle. -/
def ActorSys.init : ActorSys :=
  { queue := [], current := none, counter := 0, submitted := 0, completed := 0 }

/-- Atomic transitions of the submitters and the actor, mirrored from
the entry points (`try_send` success or failure plus the counter
increment) and from `database_handler` / `handle_result` (dequeue,
unattended failed attempt, terminal outcome, close). -/
inductive SysStep : ActorSys → ActorSys → Prop where
  | submitOk (s : ActorSys) (op : DatabaseRequest)
      (hcap : s.queue.length < CHANNEL_CAPACITY) (hop : countedReq op = true) :
      SysStep s { s with queue := s.queue ++ [op], counter := s.counter + 1,
                         submitted := s.submitted + 1 }
  | submitClose (s : ActorSys)
      (hcap : s.queue.length < CHANNEL_CAPACITY) :
      SysStep s { s with queue := s.queue ++ [DatabaseRequest.Close] }
  | submitFull (s : ActorSys) (op : DatabaseRequest)
      (hcap : CHANNEL_CAPACITY ≤ s.queue.length) :
      SysStep s s
  | dequeue (s : ActorSys) (op : DatabaseRequest) (rest : List DatabaseRequest)
      (hcur : s.current = none) (hq : s.queue = op :: rest) :
      SysStep s { s with queue := rest, current := some op }
  | retryUnattended (s : ActorSys) (op : DatabaseRequest)
      (hcur : s.current = some op) (hsess : reqSession op = some 0) :
      SysStep s s
  | terminal (s : ActorSys) (op : DatabaseRequest)
      (hcur : s.current = some op) (hop : countedReq op = true) :
      SysStep s { s with current := none, counter := s.counter - 1,
                         completed := s.completed + 1 }
  | closeDone (s : ActorSys)
      (hcur : s.current = some DatabaseRequest.Close) :
      SysStep s { s with current := none }

/-- States reachable from a fresh handle. -/
inductive SysReachable : ActorSys → Prop where
  | init : SysReachable ActorSys.init
  | step (s t : ActorSys) : SysReachable s → SysStep s t → SysReachable t

/-- Number of counted (in-flight-accounted) operations held by the
queue and the actor. -/
def pendingCount (s : ActorSys) : Nat :=
  (s.queue.filter countedReq).length +
    (match s.current with
     | some op => if countedReq op then 1 else 0
     | none => 0)

/-- The inductive in-flight invariant: the counter equals both the
ghost difference and the number of pending counted operations. -/
def sysInv (s : ActorSys) : Prop :=
  s.counter = (s.submitted : Int) - (s.completed : Int) ∧
    s.counter = (pendingCount s : Int)

theorem sysInv_init : sysInv ActorSys.init := by
  simp [sysInv, ActorSys.init, pendingCount]

theorem sysInv_step {s t : ActorSys} (h : SysStep s t) (hinv : sysInv s) :
    sysInv t := by
  obtain ⟨h1, h2⟩ := hinv
  cases h with
  | submitOk op hcap hop =>
    have hfil : List.filter countedReq (s.queue ++ [op])
        = List.filter countedReq s.queue ++ [op] := by
      simp [List.filter_append, List.filter_cons, hop]
    refine ⟨by push_cast; omega, ?_⟩
    simp only [pendingCount, hfil, List.length_append, List.length_cons,
      List.length_nil] at h2 ⊢
    push_cast at h2 ⊢
    omega
  | submitClose hcap =>
    have hfil : List.filter countedReq (s.queue ++ [DatabaseRequest.Close])
        = List.filter countedReq s.queue := by
      simp [List.filter_append, List.filter_cons, countedReq]
    refine ⟨h1, ?_⟩
    simp only [pendingCount, hfil] at h2 ⊢
    exact h2
  | submitFull op hcap => exact ⟨h1, h2⟩
  | dequeue op rest hcur hq =>
    refine ⟨h1, ?_⟩
    simp only [pendingCount, hq, hcur, List.filter_cons] at h2 ⊢
    cases hop : countedReq op <;>
      simp only [hop, if_pos, if_neg, Bool.false_eq_true, not_false_iff,
        List.length_cons, ite_true, ite_false] at h2 ⊢ <;>
      push_cast at h2 ⊢ <;> omega
  | retryUnattended op hcur hsess => exact ⟨h1, h2⟩
  | terminal op hcur hop =>
    refine ⟨by push_cast at h1 ⊢; omega, ?_⟩
    simp only [pendingCount, hcur, hop] at h2 ⊢
    push_cast at h2 ⊢
    omega
  | closeDone hcur =>
    refine ⟨h1, ?_⟩
    simp only [pendingCount, hcur, countedReq] at h2 ⊢
    push_cast at h2 ⊢
    omega

theorem sysInv_reachable {s : ActorSys} (h : SysReachable s) : sysInv s := by
  induction h with
  | init => exact sysInv_init
  | step s t _ hstep ih => exact sysInv_step hstep ih

/-- C3: for every connection handle and every sequence of submissions
and terminal completions, the in-flight counter equals the number of
successfully enqueued operations minus the number of operations that
reached a terminal outcome, and is never negative; it changes by plus
one exactly on a successful counted enqueue and by minus one exactly on
a terminal outcome, and is untouched by every other transition. -/
theorem c3_inflight_accounting (s : ActorSys) (h : SysReachable s) :
    (s.counter = (s.submitted : Int) - (s.completed : Int) ∧ 0 ≤ s.counter) ∧
    ∀ t, SysStep s t →
      (t.counter = s.counter + 1 ∧ t.submitted = s.submitted + 1 ∧
        t.completed = s.completed) ∨
      (t.counter = s.counter - 1 ∧ t.completed = s.completed + 1 ∧
        t.submitted = s.submitted) ∨
      (t.counter = s.counter ∧ t.submitted = s.submitted ∧
        t.completed = s.completed) := by
  obtain ⟨h1, h2⟩ := sysInv_reachable h
  refine ⟨⟨h1, by rw [h2]; positivity⟩, ?_⟩
  intro t hstep
  cases hstep with
  | submitOk op hcap hop => exact Or.inl ⟨rfl, rfl, rfl⟩
  | submitClose hcap => exact Or.inr (Or.inr ⟨rfl, rfl, rfl⟩)
  | submitFull op hcap => exact Or.inr (Or.inr ⟨rfl, rfl, rfl⟩)
  | dequeue op rest hcur hq => exact Or.inr (Or.inr ⟨rfl, rfl, rfl⟩)
  | retryUnattended op hcur hsess => exact Or.inr (Or.inr ⟨rfl, rfl, rfl⟩)
  | terminal op hcur hop => exact Or.inr (Or.inl ⟨rfl, rfl, rfl⟩)
  | closeDone hcur => exact Or.inr (Or.inr ⟨rfl, rfl, rfl⟩)

/-- A counted operation submitted to a fresh handle. -/
def c3op : DatabaseRequest := .Query 1 5 ⟨"SELECT 1", []⟩

/-- The handle state after that one successful enqueue. -/
def c3state : ActorSys :=
  { queue := [c3op], current := none, counter := 1, submitted := 1,
    completed := 0 }

theorem c3_inflight_accounting_witness :
    (c3state.counter = (c3state.submitted : Int) - (c3state.completed : Int) ∧
      0 ≤ c3state.counter) ∧
    ∀ t, SysStep c3state t →
      (t.counter = c3state.counter + 1 ∧ t.submitted = c3state.submitted + 1 ∧
        t.completed = c3state.completed) ∨
      (t.counter = c3state.counter - 1 ∧ t.completed = c3state.completed + 1 ∧
        t.submitted = c3state.submitted) ∨
      (t.counter = c3state.counter ∧ t.submitted = c3state.submitted ∧
        t.completed = c3state.completed) :=
  c3_inflight_accounting c3state
    (SysReachable.step _ _ SysReachable.init
      (SysStep.submitOk ActorSys.init c3op (by decide) (by decide)))

/-- C4: submission is non-blocking with a queue of capacity exactly
100: with 100 undelivered operations already queued, a further `query`
submission returns a synchronous error table, enqueues nothing and
leaves the counter untouched; below capacity it enqueues and
increments. -/
theorem c4_backpressure (conn : ConnState) (owner : Nat) (session : Int)
    (sql : String) (args : List LuaBindValue) (params : List QueryParams) :
    CHANNEL_CAPACITY = 100 ∧
    (conn.queue.length = 100 → collectParams args = .ok params →
      querySubmit conn owner session sql args
        = (conn, .errTable "ERROR" "no available capacity")) ∧
    (conn.queue.length < 100 → collectParams args = .ok params →
      querySubmit conn owner session sql args
        = ({ queue := conn.queue ++ [.Query owner session ⟨sql, params⟩],
             counter := conn.counter + 1 }, .session session)) := by
  refine ⟨rfl, ?_, ?_⟩
  · intro hlen hargs
    simp [querySubmit, hargs, trySend, hlen, CHANNEL_CAPACITY]
  · intro hlen hargs
    simp [querySubmit, hargs, trySend, hlen, CHANNEL_CAPACITY]

/-- A full queue: 100 pending requests. -/
def c4fullConn : ConnState := { queue := List.replicate 100 c3op, counter := 7 }

theorem c4_backpressure_witness :
    CHANNEL_CAPACITY = 100 ∧
    querySubmit c4fullConn 1 5 "SELECT 1" []
      = (c4fullConn, .errTable "ERROR" "no available capacity") ∧
    querySubmit { queue := [], counter := 0 } 1 5 "SELECT 1" []
      = ({ queue := [.Query 1 5 ⟨"SELECT 1", []⟩], counter := 1 },
          .session 5) :=
  ⟨(c4_backpressure c4fullConn 1 5 "SELECT 1" [] []).1,
    (c4_backpressure c4fullConn 1 5 "SELECT 1" [] []).2.1 (by simp [c4fullConn]) rfl,
    (c4_backpressure { queue := [], counter := 0 } 1 5 "SELECT 1" [] []).2.2
      (by simp) rfl⟩

/-- C10: the transaction submission entry point leaves the staging
object empty on every path; below capacity the staged queries are
enqueued as one `Transaction` operation and the counter incremented, on
a full queue a synchronous error table is returned and the connection
state (queue and counter) is untouched, the staged queries discarded. -/
theorem c10_staging_emptied (conn : ConnState) (owner : Nat) (session : Int)
    (staging : TransactionQuerys) :
    ((transactionSubmit conn owner session staging).2.1.querys = []) ∧
    (conn.queue.length < 100 →
      transactionSubmit conn owner session staging
        = ({ queue := conn.queue ++ [.Transaction owner session staging.querys],
             counter := conn.counter + 1 }, ⟨[]⟩, .session session)) ∧
    (100 ≤ conn.queue.length →
      transactionSubmit conn owner session staging
        = (conn, ⟨[]⟩, .errTable "ERROR" "no available capacity")) := by
  refine ⟨?_, ?_, ?_⟩
  · simp only [transactionSubmit, trySend]
    split <;> rfl
  · intro hlen
    simp [transactionSubmit, trySend, CHANNEL_CAPACITY, hlen]
  · intro hlen
    simp [transactionSubmit, trySend, CHANNEL_CAPACITY, Nat.not_lt.mpr hlen]

/-- A nonempty staging object. -/
def c10staging : TransactionQuerys := ⟨[⟨"UPDATE t SET x = 1", []⟩]⟩

theorem c10_staging_emptied_witness :
    ((transactionSubmit c4fullConn 1 5 c10staging).2.1.querys = []) ∧
    transactionSubmit c4fullConn 1 5 c10staging
      = (c4fullConn, ⟨[]⟩, .errTable "ERROR" "no available capacity") ∧
    transactionSubmit { queue := [], counter := 0 } 1 5 c10staging
      = ({ queue := [.Transaction 1 5 c10staging.querys], counter := 1 },
          ⟨[]⟩, .session 5) :=
  ⟨(c10_staging_emptied c4fullConn 1 5 c10staging).1,
    (c10_staging_emptied c4fullConn 1 5 c10staging).2.2 (by simp [c4fullConn]),
    (c10_staging_emptied { queue := [], counter := 0 } 1 5 c10staging).2.1
      (by simp)⟩

theorem runOp_all_errors (url : String) (proto owner : Nat) (q : DatabaseQuery) :
    ∀ (results : List (Except DbError DatabaseResponse)) (st : HandleState),
      (∀ r ∈ results, ∃ e, r = Except.error e) →
      (runOp url proto owner 0 q st results).2.2 = true ∧
      (runOp url proto owner 0 q st results).1.counter = st.counter ∧
      (runOp url proto owner 0 q st results).2.1.filter isSendEvent = [] ∧
      ∀ ev ∈ (runOp url proto owner 0 q st results).2.1,
        execPayload ev = none ∨ execPayload ev = some q := by
  intro results
  induction results with
  | nil => intro st _; simp [runOp]
  | cons r rest ih =>
    intro st h
    obtain ⟨e, he⟩ := h r (List.mem_cons_self r rest)
    subst he
    have hrest : ∀ x ∈ rest, ∃ e2, x = Except.error e2 :=
      fun x hx => h x (List.mem_cons_of_mem _ hx)
    have hout : (handle_result url st proto owner 0 (.error e)).retry = true := by
      simp [handle_result]
    obtain ⟨ih1, ih2, ih3, ih4⟩ :=
      ih (handle_result url st proto owner 0 (.error e)).state hrest
    have hcnt : (handle_result url st proto owner 0 (.error e)).state.counter
        = st.counter := by
      simp [handle_result]
    have hev : (handle_result url st proto owner 0 (.error e)).events.filter
        isSendEvent = [] := by
      by_cases hft : st.failedTimes > 0 <;> simp [handle_result, hft, isSendEvent]
    have hevmem : ∀ ev ∈ (handle_result url st proto owner 0 (.error e)).events,
        execPayload ev = none := by
      by_cases hft : st.failedTimes > 0 <;>
        simp [handle_result, hft, execPayload]
    refine ⟨?_, ?_, ?_, ?_⟩ <;>
      simp only [runOp, hout, if_pos]
    · exact ih1
    · rw [hcnt] at ih2; exact ih2
    · simp [List.filter_append, hev, ih3, isSendEvent]
    · intro ev hmem
      simp only [List.cons_append, List.mem_cons, List.mem_append] at hmem
      rcases hmem with h3 | h3 | h3
      · subst h3; right; rfl
      · exact Or.inl (hevmem ev h3)
      · exact ih4 ev h3

theorem runOp_errors_then_ok (url : String) (proto owner : Nat)
    (q : DatabaseQuery) :
    ∀ (errs : List (Except DbError DatabaseResponse)) (st : HandleState)
      (resp : DatabaseResponse),
      (∀ r ∈ errs, ∃ e, r = Except.error e) →
      (runOp url proto owner 0 q st (errs ++ [.ok resp])).2.2 = false ∧
      (runOp url proto owner 0 q st (errs ++ [.ok resp])).2.1.filter isSendEvent
        = [Event.send proto owner 0 resp] ∧
      (runOp url proto owner 0 q st (errs ++ [.ok resp])).1.counter
        = st.counter - 1 := by
  intro errs
  induction errs with
  | nil =>
    intro st resp _
    refine ⟨?_, ?_, ?_⟩ <;>
      by_cases hft : st.failedTimes > 0 <;>
        simp [runOp, handle_result, hft, isSendEvent]
  | cons r rest ih =>
    intro st resp h
    obtain ⟨e, he⟩ := h r (List.mem_cons_self r rest)
    subst he
    have hrest : ∀ x ∈ rest, ∃ e2, x = Except.error e2 :=
      fun x hx => h x (List.mem_cons_of_mem _ hx)
    have hout : (handle_result url st proto owner 0 (.error e)).retry = true := by
      simp [handle_result]
    obtain ⟨ih1, ih2, ih3⟩ :=
      ih (handle_result url st proto owner 0 (.error e)).state resp hrest
    have hcnt : (handle_result url st proto owner 0 (.error e)).state.counter
        = st.counter := by
      simp [handle_result]
    have hev : (handle_result url st proto owner 0 (.error e)).events.filter
        isSendEvent = [] := by
      by_cases hft : st.failedTimes > 0 <;> simp [handle_result, hft, isSendEvent]
    refine ⟨?_, ?_, ?_⟩ <;>
      simp only [List.cons_append, runOp, hout, if_pos]
    · exact ih1
    · simp [List.filter_append, hev, ih3, isSendEvent, ih2]
    · rw [hcnt] at ih3; exact ih3

/-- C1: the result-handling policy of `handle_result` and the actor's
retry loop.  On success the result is delivered (exactly one send),
the counter is decremented and no retry happens; on an attended failure
(`session != 0`) exactly one `Error` response is delivered, the counter
is decremented and no retry happens; on an unattended failure
(`session == 0`) nothing is delivered, the counter is untouched, a
one-second backoff sleep is emitted and the loop retries; a run of
unattended failures delivers nothing, leaves the counter untouched,
keeps retrying the same payload `q`, and ends (counter decremented,
exactly one delivery) as soon as an attempt succeeds. -/
theorem c1_result_handling_policy (url : String) (st : HandleState)
    (proto owner : Nat) (session : Int) :
    (∀ resp,
      (handle_result url st proto owner session (.ok resp)).events.filter
          isSendEvent = [Event.send proto owner session resp] ∧
      (handle_result url st proto owner session (.ok resp)).state.counter
          = st.counter - 1 ∧
      (handle_result url st proto owner session (.ok resp)).retry = false) ∧
    (∀ err, session ≠ 0 →
      (handle_result url st proto owner session (.error err)).events
          = [Event.send proto owner session (.Error err)] ∧
      (handle_result url st proto owner session (.error err)).state.counter
          = st.counter - 1 ∧
      (handle_result url st proto owner session (.error err)).retry = false) ∧
    (∀ err, session = 0 →
      (handle_result url st proto owner session (.error err)).events.filter
          isSendEvent = [] ∧
      (handle_result url st proto owner session (.error err)).state.counter
          = st.counter ∧
      (handle_result url st proto owner session (.error err)).retry = true ∧
      Event.sleep 1 ∈ (handle_result url st proto owner session (.error err)).events) ∧
    (∀ q results, session = 0 →
      (∀ r ∈ results, ∃ e, r = Except.error e) →
      (runOp url proto owner session q st results).2.2 = true ∧
      (runOp url proto owner session q st results).1.counter = st.counter ∧
      (runOp url proto owner session q st results).2.1.filter isSendEvent = [] ∧
      ∀ ev ∈ (runOp url proto owner session q st results).2.1,
        execPayload ev = none ∨ execPayload ev = some q) ∧
    (∀ q errs resp, session = 0 →
      (∀ r ∈ errs, ∃ e, r = Except.error e) →
      (runOp url proto owner session q st (errs ++ [.ok resp])).2.2 = false ∧
      (runOp url proto owner session q st (errs ++ [.ok resp])).2.1.filter
          isSendEvent = [Event.send proto owner session resp] ∧
      (runOp url proto owner session q st (errs ++ [.ok resp])).1.counter
          = st.counter - 1) := by
  refine ⟨?_, ?_, ?_, ?_, ?_⟩
  · intro resp
    by_cases hft : st.failedTimes > 0 <;>
      simp [handle_result, hft, isSendEvent]
  · intro err hs
    simp [handle_result, hs]
  · intro err hs
    subst hs
    by_cases hft : st.failedTimes > 0 <;>
      simp [handle_result, hft, isSendEvent]
  · intro q results hs h
    subst hs
    exact runOp_all_errors url proto owner q results st h
  · intro q errs resp hs h
    subst hs
    exact runOp_errors_then_ok url proto owner q errs st resp h

theorem c1_result_handling_policy_witness :
    ((handle_result "db" ⟨0, 4⟩ 1 2 9 (.ok .Transaction)).retry = false ∧
      (handle_result "db" ⟨0, 4⟩ 1 2 9 (.ok .Transaction)).state.counter = 3) ∧
    ((handle_result "db" ⟨0, 4⟩ 1 2 9 (.error ⟨none, "x"⟩)).retry = false) ∧
    ((handle_result "db" ⟨0, 4⟩ 1 2 0 (.error ⟨none, "x"⟩)).retry = true ∧
      (handle_result "db" ⟨0, 4⟩ 1 2 0 (.error ⟨none, "x"⟩)).state.counter = 4) ∧
    ((runOp "db" 1 2 0 ⟨"S", []⟩ ⟨0, 4⟩
        [.error ⟨none, "x"⟩, .error ⟨none, "y"⟩]).2.2 = true) ∧
    ((runOp "db" 1 2 0 ⟨"S", []⟩ ⟨0, 4⟩
        ([.error ⟨none, "x"⟩] ++ [.ok .Transaction])).2.2 = false) := by
  have h9 : (9 : Int) ≠ 0 := by decide
  have herr : ∀ r ∈ ([.error ⟨none, "x"⟩, .error ⟨none, "y"⟩] :
      List (Except DbError DatabaseResponse)), ∃ e, r = Except.error e := by
    intro r hr
    simp only [List.mem_cons, List.not_mem_nil, or_false] at hr
    rcases hr with h | h <;> exact ⟨_, h⟩
  have herr1 : ∀ r ∈ ([.error ⟨none, "x"⟩] :
      List (Except DbError DatabaseResponse)), ∃ e, r = Except.error e := by
    intro r hr
    simp only [List.mem_cons, List.not_mem_nil, or_false] at hr
    exact ⟨_, hr⟩
  refine ⟨⟨?_, ?_⟩, ?_, ⟨?_, ?_⟩, ?_, ?_⟩
  · exact ((c1_result_handling_policy "db" ⟨0, 4⟩ 1 2 9).1 .Transaction).2.2
  · have := ((c1_result_handling_policy "db" ⟨0, 4⟩ 1 2 9).1 .Transaction).2.1
    simpa using this
  · exact ((c1_result_handling_policy "db" ⟨0, 4⟩ 1 2 9).2.1 ⟨none, "x"⟩ h9).2.2
  · exact ((c1_result_handling_policy "db" ⟨0, 4⟩ 1 2 0).2.2.1 ⟨none, "x"⟩ rfl).2.2.1
  · have := ((c1_result_handling_policy "db" ⟨0, 4⟩ 1 2 0).2.2.1 ⟨none, "x"⟩ rfl).2.1
    simpa using this
  · exact ((c1_result_handling_policy "db" ⟨0, 4⟩ 1 2 0).2.2.2.1 ⟨"S", []⟩
      [.error ⟨none, "x"⟩, .error ⟨none, "y"⟩] rfl herr).1
  · exact ((c1_result_handling_policy "db" ⟨0, 4⟩ 1 2 0).2.2.2.2 ⟨"S", []⟩
      [.error ⟨none, "x"⟩] .Transaction rfl herr1).1

/-- The event trace of one unattended operation that fails once and
then succeeds: execute, sleep, execute, deliver, log recovery. -/
def c9trace : List Event :=
  (runOp "db" 1 7 0 ⟨"S", []⟩ ⟨0, 4⟩
    [.error ⟨none, "x"⟩, .ok .Transaction]).2.1

/-- C9 counterexample: in the trace of an unattended operation that
succeeds after one failure, the first delivery (`moon_send`) comes at
index 3 and the recovery log at index 4 — the recovery notice is logged
after, not before, the success is delivered, refuting the claim's
ordering. -/
theorem c9_counterexample :
    c9trace = [Event.exec ⟨"S", []⟩, Event.sleep 1, Event.exec ⟨"S", []⟩,
      Event.send 1 7 0 .Transaction,
      Event.log 7 LOG_LEVEL_INFO
        ("Database \x27db\x27 recover from error. Retry success.")] ∧
    c9trace.findIdx isSendEvent = 3 ∧
    c9trace.findIdx isLogEvent = 4 ∧
    ¬ c9trace.findIdx isLogEvent < c9trace.findIdx isSendEvent := by
  refine ⟨rfl, rfl, rfl, ?_⟩
  rw [show c9trace.findIdx isLogEvent = 4 from rfl,
    show c9trace.findIdx isSendEvent = 3 from rfl]
  omega

/-- C9 amended: the first failure of an unattended operation is not
logged (an error-level log appears only when `failed_times > 0`), and
when the operation succeeds after at least one prior failure a recovery
notice is logged immediately after the success delivery call (the
`moon_send` precedes the recovery log in the trace). -/
theorem c9_retry_logging_discipline (url : String) (st : HandleState)
    (proto owner : Nat) (err : DbError) (resp : DatabaseResponse) :
    (st.failedTimes = 0 →
      (handle_result url st proto owner 0 (.error err)).events.filter
        isLogEvent = []) ∧
    (0 < st.failedTimes →
      ∃ m, (handle_result url st proto owner 0 (.error err)).events.filter
        isLogEvent = [Event.log owner LOG_LEVEL_ERROR m]) ∧
    (0 < st.failedTimes →
      ∃ m, (handle_result url st proto owner 0 (.ok resp)).events
        = [Event.send proto owner 0 resp, Event.log owner LOG_LEVEL_INFO m]) ∧
    (st.failedTimes = 0 →
      (handle_result url st proto owner 0 (.ok resp)).events
        = [Event.send proto owner 0 resp]) := by
  refine ⟨?_, ?_, ?_, ?_⟩
  · intro hft
    simp [handle_result, hft, isLogEvent]
  · intro hft
    refine ⟨"Database \x27" ++ url ++ "\x27 error: \x27" ++ err.text ++
      "\x27. Will retry.", ?_⟩
    simp [handle_result, hft, isLogEvent]
  · intro hft
    refine ⟨"Database \x27" ++ url ++ "\x27 recover from error. Retry success.", ?_⟩
    simp [handle_result, hft]
  · intro hft
    simp [handle_result, hft]

theorem c9_retry_logging_discipline_witness :
    ((handle_result "db" ⟨0, 4⟩ 1 7 0 (.error ⟨none, "x"⟩)).events.filter
      isLogEvent = []) ∧
    (∃ m, (handle_result "db" ⟨2, 4⟩ 1 7 0 (.error ⟨none, "x"⟩)).events.filter
      isLogEvent = [Event.log 7 LOG_LEVEL_ERROR m]) ∧
    (∃ m, (handle_result "db" ⟨2, 4⟩ 1 7 0 (.ok .Transaction)).events
      = [Event.send 1 7 0 .Transaction, Event.log 7 LOG_LEVEL_INFO m]) ∧
    ((handle_result "db" ⟨0, 4⟩ 1 7 0 (.ok .Transaction)).events
      = [Event.send 1 7 0 .Transaction]) :=
  ⟨(c9_retry_logging_discipline "db" ⟨0, 4⟩ 1 7 ⟨none, "x"⟩ .Transaction).1 rfl,
    (c9_retry_logging_discipline "db" ⟨2, 4⟩ 1 7 ⟨none, "x"⟩ .Transaction).2.1
      (by decide),
    (c9_retry_logging_discipline "db" ⟨2, 4⟩ 1 7 ⟨none, "x"⟩ .Transaction).2.2.1
      (by decide),
    (c9_retry_logging_discipline "db" ⟨0, 4⟩ 1 7 ⟨none, "x"⟩ .Transaction).2.2.2
      rfl⟩

/-- An execution model for the transaction claims: the database state
is a counter, "INSERT" bumps it, "FAIL" fails. -/
def c2exec : DatabaseQuery → Nat → Except DbError Nat := fun q db =>
  if q.sql = "FAIL" then .error ⟨none, "boom"⟩ else .ok (db + 1)

/-- A staged batch whose second query fails. -/
def c2batch : List DatabaseQuery := [⟨"INSERT", []⟩, ⟨"FAIL", []⟩]

/-- C2 counterexample: the tiberius backend executes a `Transaction`
operation via `batch_execute`, which runs the queries without a
database transaction; on this batch the second query fails yet the
first query's effect stays committed (final state 1, not the initial
0), refuting all-or-nothing atomicity for that backend. -/
theorem c2_counterexample :
    tiberiusBatchExecute c2exec c2batch 0
      = (1, .error ⟨none, "boom"⟩) ∧
    (tiberiusBatchExecute c2exec c2batch 0).1 ≠ 0 := by
  exact ⟨rfl, by decide⟩

/-- C2 amended: the sqlx backend's `transaction` is atomic — if any
staged query fails the database state is left exactly as it was, and
only a full success publishes the accumulated effects; the tiberius
backend's `batch_execute` instead applies each successful query
directly, so effects of queries before a failure persist. -/
theorem c2_transaction_atomicity {σ : Type}
    (exec : DatabaseQuery → σ → Except DbError σ) (db : σ) :
    (∀ qs e, runQueries exec qs db = .error e →
      sqlxTransaction exec qs db = (db, .error e)) ∧
    (∀ qs db2, runQueries exec qs db = .ok db2 →
      sqlxTransaction exec qs db = (db2, .ok .Transaction)) ∧
    (∀ q rest db2, exec q db = .ok db2 →
      tiberiusBatchExecute exec (q :: rest) db
        = tiberiusBatchExecute exec rest db2) ∧
    (∀ q rest e, exec q db = .error e →
      tiberiusBatchExecute exec (q :: rest) db = (db, .error e)) := by
  refine ⟨?_, ?_, ?_, ?_⟩
  · intro qs e h
    simp [sqlxTransaction, h]
  · intro qs db2 h
    simp [sqlxTransaction, h]
  · intro q rest db2 h
    simp [tiberiusBatchExecute, h]
  · intro q rest e h
    simp [tiberiusBatchExecute, h]

theorem c2_transaction_atomicity_witness :
    sqlxTransaction c2exec c2batch 0 = (0, .error ⟨none, "boom"⟩) ∧
    sqlxTransaction c2exec [⟨"INSERT", []⟩] 0 = (1, .ok .Transaction) ∧
    tiberiusBatchExecute c2exec c2batch 0
      = tiberiusBatchExecute c2exec [⟨"FAIL", []⟩] 1 :=
  ⟨(c2_transaction_atomicity c2exec 0).1 c2batch ⟨none, "boom"⟩ rfl,
    (c2_transaction_atomicity c2exec 0).2.1 [⟨"INSERT", []⟩] 1 rfl,
    (c2_transaction_atomicity c2exec 0).2.2.1 ⟨"INSERT", []⟩ [⟨"FAIL", []⟩] 1 rfl⟩

/-- The response whose row batch hits a column access error. -/
def c8resp : DatabaseResponse :=
  .Rows [{ columns := [⟨"c", "INT"⟩], cells := [.error "boom"] }]

/-- C8 counterexample: a column-level access error during row decoding
is surfaced by `decode` as the two return values `false, message`, not
as a `kind`/`message` table, refuting "every error surfaced by decode
is converted into a kind/message shape". -/
theorem c8_counterexample :
    decode c8resp = .pair false "c decode error: boom" ∧
    isKindMessageTable (decode c8resp) = false := by
  exact ⟨rfl, rfl⟩

/-- C8 amended: unsupported-type errors, `Error` and `Timeout` results
decode to a `kind`/`message` table with kind in ERROR/DB/TIMEOUT;
transaction and connect successes decode to a table with a plain
`message` field and no `kind` field; a column-level access error
instead yields the `false, message` pair of return values. -/
theorem c8_decode_error_shapes (rows : List DbRow) (m t : String) (b : Bool)
    (e : DbError) :
    (processRows rows = .err m →
      decode (.Rows rows)
        = .table [("kind", .str "ERROR"), ("message", .str m)] ∧
      isKindMessageTable (decode (.Rows rows)) = true) ∧
    (decode (.Error ⟨some m, t⟩)
      = .table [("kind", .str "DB"), ("message", .str m)]) ∧
    (decode (.Error ⟨none, t⟩)
      = .table [("kind", .str "ERROR"), ("message", .str t)]) ∧
    (decode (.Timeout m)
      = .table [("kind", .str "TIMEOUT"), ("message", .str m)]) ∧
    isKindMessageTable (decode (.Error e)) = true ∧
    isKindMessageTable (decode (.Timeout m)) = true ∧
    (decode .Transaction = .table [("message", .str "ok")]) ∧
    (decode .Connect = .table [("message", .str "success")]) ∧
    isKindMessageTable (decode .Transaction) = false ∧
    isKindMessageTable (decode .Connect) = false ∧
    (processRows rows = .accessPair b m →
      decode (.Rows rows) = .pair b m ∧
      isKindMessageTable (decode (.Rows rows)) = false) := by
  refine ⟨?_, rfl, rfl, rfl, ?_, rfl, rfl, rfl, rfl, rfl, ?_⟩
  · intro h
    exact ⟨by simp [decode, h], by simp [decode, h, isKindMessageTable]⟩
  · rcases e with ⟨dbm, txt⟩
    cases dbm <;> rfl
  · intro h
    exact ⟨by simp [decode, h], by simp [decode, h, isKindMessageTable]⟩

/-- A row batch with a `DECIMAL` column and a non-null cell. -/
def c8decimalRows : List DbRow :=
  [{ columns := [⟨"n", "DECIMAL"⟩],
     cells := [.ok ⟨false, none, none, none, none, none, none, none, none,
       none, none, none, none, none⟩] }]

/-- A row batch with a column access error. -/
def c8accessRows : List DbRow :=
  [{ columns := [⟨"c", "INT"⟩], cells := [.error "boom"] }]

theorem c8_decode_error_shapes_witness :
    (decode (.Rows c8decimalRows)
      = .table [("kind", .str "ERROR"),
          ("message", .str "Unsupported decimal type for column \x27n\x27")] ∧
      isKindMessageTable (decode (.Rows c8decimalRows)) = true) ∧
    (decode (.Rows c8accessRows)
      = .pair false "c decode error: boom" ∧
      isKindMessageTable (decode (.Rows c8accessRows)) = false) :=
  ⟨(c8_decode_error_shapes c8decimalRows
      "Unsupported decimal type for column \x27n\x27" "t" false
      ⟨none, "t"⟩).1 rfl,
    (c8_decode_error_shapes c8accessRows
      "c decode error: boom" "t" false ⟨none, "t"⟩).2.2.2.2.2.2.2.2.2.2 rfl⟩

/-- C6: per-category row-decoding policy of `process_rows`: a
storage-level Null cell decodes to Lua nil before the category
dispatch, regardless of the declared type; failed numeric, boolean and
text decodes substitute a zero/false/empty default instead of failing
the row; timestamp, date and time cells format as
`YYYY-MM-DD HH:MM:SS`, `YYYY-MM-DD` and `HH:MM:SS` and substitute nil
on a decode error. -/
theorem c6_row_decode_policy (colName : String) (v : RawValue) :
    (∀ ty, v.isNull = true → processCell colName ty v = .ok .nil) ∧
    (v.isNull = false →
      (v.asI8 = none → processCell colName .Int8 v = .ok (.int 0)) ∧
      (v.asI8 = none → processCell colName .UInt8 v = .ok (.int 0)) ∧
      (v.asI16 = none → processCell colName .Int16 v = .ok (.int 0)) ∧
      (v.asI16 = none → processCell colName .UInt16 v = .ok (.int 0)) ∧
      (v.asI32 = none → processCell colName .Int32 v = .ok (.int 0)) ∧
      (v.asI32 = none → processCell colName .UInt32 v = .ok (.int 0)) ∧
      (v.asI64 = none → processCell colName .Int64 v = .ok (.int 0)) ∧
      (v.asI64 = none → processCell colName .UInt64 v = .ok (.int 0)) ∧
      (v.asF32 = none → processCell colName .Float32 v = .ok (.num 0)) ∧
      (v.asF64 = none → processCell colName .Float64 v = .ok (.num 0)) ∧
      (v.asBool = none → processCell colName .Bool v = .ok (.bool false)) ∧
      (v.asStr = none → processCell colName .Text v = .ok (.str ""))) ∧
    (v.isNull = false →
      (∀ dt, v.asDateTime = some dt →
        processCell colName .Timestamp v = .ok (.str (formatTimestamp dt))) ∧
      (v.asDateTime = none → processCell colName .Timestamp v = .ok .nil) ∧
      (∀ d, v.asDate = some d →
        processCell colName .Date v = .ok (.str (formatDate d))) ∧
      (v.asDate = none → processCell colName .Date v = .ok .nil) ∧
      (∀ t, v.asTime = some t →
        processCell colName .Time v = .ok (.str (formatTime t))) ∧
      (v.asTime = none → processCell colName .Time v = .ok .nil)) ∧
    formatTimestamp ⟨2024, 3, 7, 9, 5, 2⟩ = "2024-03-07 09:05:02" ∧
    formatDate ⟨2024, 3, 7⟩ = "2024-03-07" ∧
    formatTime ⟨9, 5, 2⟩ = "09:05:02" := by
  refine ⟨?_, ?_, ?_, rfl, rfl, rfl⟩
  · intro ty hnull
    simp [processCell, hnull]
  · intro hnull
    refine ⟨?_, ?_, ?_, ?_, ?_, ?_, ?_, ?_, ?_, ?_, ?_, ?_⟩ <;>
      intro hdec <;> simp [processCell, hnull, hdec] <;> decide
  · intro hnull
    refine ⟨?_, ?_, ?_, ?_, ?_, ?_⟩ <;>
      first
        | (intro x hdec; simp [processCell, hnull, hdec])
        | (intro hdec; simp [processCell, hnull, hdec])

/-- A fully-undecodable non-null raw value. -/
def c6badRaw : RawValue :=
  ⟨false, none, none, none, none, none, none, none, none, none, none,
    none, none, none⟩

/-- A null raw cell. -/
def c6nullRaw : RawValue :=
  ⟨true, none, none, none, none, none, none, none, none, none, none,
    none, none, none⟩

/-- A non-null raw value holding a timestamp. -/
def c6tsRaw : RawValue :=
  { c6badRaw with asDateTime := some ⟨2024, 3, 7, 9, 5, 2⟩ }

theorem c6_row_decode_policy_witness :
    processCell "c" .UnsupportedDecimal c6nullRaw = .ok .nil ∧
    processCell "c" .Int32 c6badRaw = .ok (.int 0) ∧
    processCell "c" .Timestamp c6badRaw = .ok .nil ∧
    processCell "c" .Timestamp c6tsRaw = .ok (.str "2024-03-07 09:05:02") :=
  ⟨(c6_row_decode_policy "c" c6nullRaw).1 .UnsupportedDecimal rfl,
    ((c6_row_decode_policy "c" c6badRaw).2.1 rfl).2.2.2.2.1 rfl,
    ((c6_row_decode_policy "c" c6badRaw).2.2.1 rfl).2.1 rfl,
    by
      have := ((c6_row_decode_policy "c" c6tsRaw).2.2.1 rfl).1
        ⟨2024, 3, 7, 9, 5, 2⟩ rfl
      simpa using this⟩

/-- A single-row batch with a `DECIMAL` column whose cell is null. -/
def c7nullBatch : List DbRow :=
  [{ columns := [⟨"n", "DECIMAL"⟩], cells := [.ok c6nullRaw] }]

/-- Whether a `process_rows` outcome is the unsupported-type abort. -/
def RowsOut.isErr : RowsOut → Bool
  | .err _ => true
  | _ => false

/-- C7 counterexample: a result set with a `DECIMAL` column does not
always abort — the storage-level-null check runs before the category
dispatch, so a null cell in the unsupported column decodes to nil and
the batch succeeds, refuting "aborts ... regardless of the cell
values". -/
theorem c7_counterexample :
    processRows c7nullBatch = .ok [[("n", .nil)]] ∧
    (processRows c7nullBatch).isErr = false := by
  exact ⟨rfl, rfl⟩

/-- C7 amended: `DECIMAL`, `NUMERIC` and `MONEY` map to the unsupported
decimal category and `TIMETZ` to unsupported time-with-timezone; the
lookup is case-sensitive exact match and unmapped names fall to
`Unknown`; decoding a non-null cell of an unsupported column aborts the
batch with an error naming the column, while a null cell decodes to nil
without aborting. -/
theorem c7_unsupported_type_abort (c : String) (v : RawValue) :
    DbType.from_name "DECIMAL" = .UnsupportedDecimal ∧
    DbType.from_name "NUMERIC" = .UnsupportedDecimal ∧
    DbType.from_name "MONEY" = .UnsupportedDecimal ∧
    DbType.from_name "TIMETZ" = .UnsupportedTimeWithTz ∧
    DbType.from_name "decimal" = .Unknown ∧
    DbType.from_name "Decimal" = .Unknown ∧
    DbType.from_name "NOT A TYPE" = .Unknown ∧
    (v.isNull = false →
      processCell c .UnsupportedDecimal v
        = .error ("Unsupported decimal type for column \x27" ++ c ++ "\x27") ∧
      processCell c .UnsupportedTimeWithTz v
        = .error ("Unsupported time with time zone type for column \x27" ++
            c ++ "\x27")) ∧
    (v.isNull = true → processCell c .UnsupportedDecimal v = .ok .nil) ∧
    (v.isNull = false →
      processRows [{ columns := [⟨c, "DECIMAL"⟩], cells := [.ok v] }]
        = .err ("Unsupported decimal type for column \x27" ++ c ++ "\x27")) := by
  refine ⟨rfl, rfl, rfl, rfl, rfl, rfl, rfl, ?_, ?_, ?_⟩
  · intro hnull
    exact ⟨by simp [processCell, hnull], by simp [processCell, hnull]⟩
  · intro hnull
    simp [processCell, hnull]
  · intro hnull
    have hty : DbType.from_name "DECIMAL" = .UnsupportedDecimal := rfl
    simp [processRows, processRowsGo, processRow, columnInfo, List.enum, hty,
      processCell, hnull]

theorem c7_unsupported_type_abort_witness :
    (processCell "n" .UnsupportedDecimal c6badRaw
      = .error "Unsupported decimal type for column \x27n\x27") ∧
    (processCell "n" .UnsupportedDecimal c6nullRaw = .ok .nil) ∧
    (processRows [{ columns := [⟨"n", "DECIMAL"⟩], cells := [.ok c6badRaw] }]
      = .err "Unsupported decimal type for column \x27n\x27") :=
  ⟨((c7_unsupported_type_abort "n" c6badRaw).2.2.2.2.2.2.2.1 rfl).1,
    (c7_unsupported_type_abort "n" c6nullRaw).2.2.2.2.2.2.2.2.1 rfl,
    (c7_unsupported_type_abort "n" c6badRaw).2.2.2.2.2.2.2.2.2 rfl⟩

theorem collectParams_error_of_other (args : List LuaBindValue) :
    ∀ t, LuaBindValue.other t ∈ args → ∃ m, collectParams args = .error m := by
  induction args with
  | nil => intro t ht; cases ht
  | cons v rest ih =>
    intro t ht
    rcases List.mem_cons.mp ht with h | h
    · subst h
      exact ⟨"get_query_param: unsupport value type :" ++ t,
        by simp [collectParams, get_query_param]⟩
    · obtain ⟨m, hm⟩ := ih t h
      cases hv : get_query_param v with
      | ok p => exact ⟨m, by simp [collectParams, hv, hm, Except.map]⟩
      | error e => exact ⟨e, by simp [collectParams, hv]⟩

/-- C5: bind-value classification.  Booleans, integers and floats
classify directly; a string whose first byte is an object or array
opener is parsed as JSON, classifying as `Json` on success and as
`Text` (the original string) on failure, and any other string is
`Text`; a serialized table whose first byte is an opener is parsed as
JSON, classifying as `Json` on success and `Bytes` on failure, and
otherwise `Bytes`; any other value kind is a construction error, and a
`query` submission carrying such an argument returns the error
synchronously with nothing enqueued and the counter untouched.  The
spec's three test vectors are evaluated at the end. -/
theorem c5_bind_classification :
    (∀ b, get_query_param (.boolean b) = .ok (.Bool b)) ∧
    (∀ i, get_query_param (.integer i) = .ok (.Int i)) ∧
    (∀ bits, get_query_param (.number bits) = .ok (.Float bits)) ∧
    (∀ s v, (firstByteIs s '\x7b' || firstByteIs s '[') = true →
      jsonFromSlice s = some v →
      get_query_param (.string s) = .ok (.Json v)) ∧
    (∀ s, (firstByteIs s '\x7b' || firstByteIs s '[') = true →
      jsonFromSlice s = none →
      get_query_param (.string s) = .ok (.Text s)) ∧
    (∀ s, (firstByteIs s '\x7b' || firstByteIs s '[') = false →
      get_query_param (.string s) = .ok (.Text s)) ∧
    (∀ b0 rest v, (b0 = '\x7b' || b0 = '[') = true →
      jsonFromSlice (String.mk (b0 :: rest)) = some v →
      get_query_param (.table b0 rest) = .ok (.Json v)) ∧
    (∀ b0 rest, (b0 = '\x7b' || b0 = '[') = true →
      jsonFromSlice (String.mk (b0 :: rest)) = none →
      get_query_param (.table b0 rest) = .ok (.Bytes (String.mk (b0 :: rest)))) ∧
    (∀ b0 rest, (b0 = '\x7b' || b0 = '[') = false →
      get_query_param (.table b0 rest) = .ok (.Bytes (String.mk (b0 :: rest)))) ∧
    (∀ t, get_query_param (.other t)
      = .error ("get_query_param: unsupport value type :" ++ t)) ∧
    (∀ conn owner session sql args t, LuaBindValue.other t ∈ args →
      (querySubmit conn owner session sql args).1 = conn ∧
      ∃ m, (querySubmit conn owner session sql args).2 = .errTable "ERROR" m) ∧
    get_query_param (.string "\x7b\"a\":1\x7d")
      = .ok (.Json (.obj [("a", .num "1")])) ∧
    get_query_param (.string "hello") = .ok (.Text "hello") ∧
    get_query_param (.string "\x7bnot json") = .ok (.Text "\x7bnot json") := by
  refine ⟨fun b => rfl, fun i => rfl, fun bits => rfl,
    ?_, ?_, ?_, ?_, ?_, ?_, fun t => rfl, ?_, rfl, rfl, rfl⟩
  · intro s v h1 h2
    simp [get_query_param, h1, h2]
  · intro s h1 h2
    simp [get_query_param, h1, h2]
  · intro s h1
    simp [get_query_param, h1]
  · intro b0 rest v h1 h2
    simp [get_query_param, h1, h2]
  · intro b0 rest h1 h2
    simp [get_query_param, h1, h2]
  · intro b0 rest h1
    simp [get_query_param, h1]
  · intro conn owner session sql args t hmem
    obtain ⟨m, hm⟩ := collectParams_error_of_other args t hmem
    exact ⟨by simp [querySubmit, hm], ⟨m, by simp [querySubmit, hm]⟩⟩

theorem c5_bind_classification_witness :
    get_query_param (.boolean true) = .ok (.Bool true) ∧
    get_query_param (.integer 42) = .ok (.Int 42) ∧
    get_query_param (.number 3) = .ok (.Float 3) ∧
    get_query_param (.string "[1]") = .ok (.Json (.arr [.num "1"])) ∧
    get_query_param (.string "[oops") = .ok (.Text "[oops") ∧
    get_query_param (.string "plain") = .ok (.Text "plain") ∧
    get_query_param (.table '\x7b' "\"k\":true\x7d".toList)
      = .ok (.Json (.obj [("k", .bool true)])) ∧
    get_query_param (.table '\x7b' "broken".toList)
      = .ok (.Bytes (String.mk ('\x7b' :: "broken".toList))) ∧
    get_query_param (.table 'x' "yz".toList)
      = .ok (.Bytes (String.mk ('x' :: "yz".toList))) ∧
    get_query_param (.other "function")
      = .error "get_query_param: unsupport value type :function" ∧
    ((querySubmit ⟨[], 0⟩ 1 5 "SELECT ?" [.other "function"]).1 = ⟨[], 0⟩ ∧
      ∃ m, (querySubmit ⟨[], 0⟩ 1 5 "SELECT ?" [.other "function"]).2
        = .errTable "ERROR" m) :=
  ⟨c5_bind_classification.1 true,
    c5_bind_classification.2.1 42,
    c5_bind_classification.2.2.1 3,
    c5_bind_classification.2.2.2.1 "[1]" (.arr [.num "1"]) rfl rfl,
    c5_bind_classification.2.2.2.2.1 "[oops" rfl rfl,
    c5_bind_classification.2.2.2.2.2.1 "plain" rfl,
    c5_bind_classification.2.2.2.2.2.2.1 '\x7b' "\"k\":true\x7d".toList
      (.obj [("k", .bool true)]) rfl rfl,
    c5_bind_classification.2.2.2.2.2.2.2.1 '\x7b' "broken".toList rfl rfl,
    c5_bind_classification.2.2.2.2.2.2.2.2.1 'x' "yz".toList rfl,
    c5_bind_classification.2.2.2.2.2.2.2.2.2.1 "function",
    c5_bind_classification.2.2.2.2.2.2.2.2.2.2.1 ⟨[], 0⟩ 1 5 "SELECT ?"
      [.other "function"] "function" (List.mem_singleton.mpr rfl)⟩

end LRust
